import Mathlib

/-!
Shallow embedding of the tfd radar widget module (src/tfd/src/radar.cpp,
src/tfd/src/include/radar.hpp, src/tfd/src/include/tfd.hpp): the property
mediation layer, the radar object manager, the tracked-object reference, the
render-resource cache slots and the repaint timer, with theorems checking the
specification's claims.

Modelling conventions:
* float scalars are modelled as exact rationals; decimal float literals of the
  source are taken at their decimal value.
* Qt value types (QPointF, QSizeF, QColor, QVariant, fonts, pixmaps) are
  modelled structurally with the fields the source reads and writes.
* the raw pointer m_trackedObject is modelled by the identifier of the map
  node it points to (none for nullptr); operations of the source that do not
  touch the pointer leave the field unchanged.
* enum class values travel as raw Int, as the source freely casts integers
  into them; size_t casts are taken modulo 2 ^ 64.
* Qt signals are modelled by invoking the connected slots at the emit sites.
-/

namespace tfd

/-- model of QPointF: a lat/long coordinate pair. -/
structure QPointF where
  x : ℚ
  y : ℚ
deriving DecidableEq

/-- model of QSizeF: a width/height pair, also used by the source as an inclusive numeric range. -/
structure QSizeF where
  w : ℚ
  h : ℚ
deriving DecidableEq

/-- model of QColor: validity flag plus RGB components. -/
structure QColor where
  valid : Bool
  r : Int
  g : Int
  b : Int
deriving DecidableEq

/-- default-constructed QColor (an invalid color). -/
def QColor.inv : QColor := ⟨false, 0, 0, 0⟩

/-- the color Qt.gray. -/
def qtGray : QColor := ⟨true, 160, 160, 164⟩

/-- the color Qt.black. -/
def qtBlack : QColor := ⟨true, 0, 0, 0⟩

/-- FontProperties of tfd.hpp. -/
structure FontProperties where
  family : String
  pointSize : Int
  weight : Int
  isItalic : Bool
deriving DecidableEq

/-- FontProperties with the B612 family, as in the ObjectRadarPrivate field initializers. -/
def fontB612 (pt : Int) : FontProperties := ⟨":/fonts/B612_Mono.ttf", pt, -1, false⟩

/-- model of a rendered QFont handle (a cached resource). -/
structure QFont where
  family : String
  pointSize : Int
deriving DecidableEq

/-- default-constructed QFont. -/
def QFont.initial : QFont := ⟨"", -1⟩

/-- model of QPixmap (a cached resource); default-constructed pixmaps are null, zero by zero. -/
structure QPixmap where
  w : Int
  h : Int
deriving DecidableEq

/-- metatype tags used by the property system for type checking; mfp and mpa model the
custom ids gl_FPType and gl_PAType of tfd.hpp. -/
inductive QMetaTypeT where
  | mfloat
  | mint
  | mbool
  | mqstring
  | mqpointf
  | mqsizef
  | mqcolor
  | mfp
  | mpa
  | minvalid
deriving DecidableEq

/-- model of QVariant: a tagged value, one variant per metatype the source handles. -/
inductive QVariant where
  | invalid
  | vfloat (q : ℚ)
  | vint (n : Int)
  | vbool (b : Bool)
  | vstring (s : String)
  | vpointF (p : QPointF)
  | vsizeF (z : QSizeF)
  | vcolor (c : QColor)
  | vfont (f : FontProperties)
  | varea (vertices : List QPointF) (smooth : Bool)
deriving DecidableEq

/-- QVariant.typeId. -/
def QVariant.typeId : QVariant → QMetaTypeT
  | .invalid => .minvalid
  | .vfloat _ => .mfloat
  | .vint _ => .mint
  | .vbool _ => .mbool
  | .vstring _ => .mqstring
  | .vpointF _ => .mqpointf
  | .vsizeF _ => .mqsizef
  | .vcolor _ => .mqcolor
  | .vfont _ => .mfp
  | .varea _ _ => .mpa

/-- conversion of a rational to an integer by truncation toward zero
(the C float-to-int conversion). -/
def truncToInt (q : ℚ) : Int := q.num.tdiv q.den

/-- QVariant.toFloat. -/
def QVariant.toFloat : QVariant → ℚ
  | .vfloat q => q
  | .vint n => (n : ℚ)
  | .vbool b => if b then 1 else 0
  | _ => 0

/-- QVariant.toInt. -/
def QVariant.toInt : QVariant → Int
  | .vint n => n
  | .vfloat q => truncToInt q
  | .vbool b => if b then 1 else 0
  | _ => 0

/-- QVariant.toPointF. -/
def QVariant.toPointF : QVariant → QPointF
  | .vpointF p => p
  | _ => ⟨0, 0⟩

/-- QVariant.toSizeF; non-convertible variants yield the default-constructed (invalid) QSizeF. -/
def QVariant.toSizeF : QVariant → QSizeF
  | .vsizeF z => z
  | _ => ⟨-1, -1⟩

/-- QVariant.toString for string variants. -/
def QVariant.toQString : QVariant → String
  | .vstring s => s
  | _ => ""

/-- QVariant.value specialized at QColor. -/
def QVariant.toColorV : QVariant → QColor
  | .vcolor c => c
  | _ => QColor.inv

/-- QVariant.value specialized at FontProperties. -/
def QVariant.toFontProps : QVariant → FontProperties
  | .vfont f => f
  | _ => ⟨":/fonts/B612_Mono.ttf", -1, -1, false⟩

/-- QVariant.toBool. -/
def QVariant.toBoolV : QVariant → Bool
  | .vbool b => b
  | .vint n => n != 0
  | _ => false

/-- the view property index ObjectRadar.Property.UpdateRate. -/
def PUpdateRate : Int := 0

/-- the view property index ObjectRadar.Property.StaticTextFont. -/
def PStaticTextFont : Int := 1

/-- the view property index ObjectRadar.Property.LabelFont. -/
def PLabelFont : Int := 2

/-- the view property index ObjectRadar.Property.ObjectLabelFont. -/
def PObjectLabelFont : Int := 3

/-- the view property index ObjectRadar.Property.ForegroundColor. -/
def PForegroundColor : Int := 4

/-- the view property index ObjectRadar.Property.BackgroundColor. -/
def PBackgroundColor : Int := 5

/-- the view property index ObjectRadar.Property.RadarCenter. -/
def PRadarCenter : Int := 6

/-- the view property index ObjectRadar.Property.RadarAltitude. -/
def PRadarAltitude : Int := 7

/-- the view property index ObjectRadar.Property.RadarRange. -/
def PRadarRange : Int := 8

/-- the view property index ObjectRadar.Property.AreaOpacity. -/
def PAreaOpacity : Int := 9

/-- the view property index ObjectRadar.Property.OutlineStrength. -/
def POutlineStrength : Int := 10

/-- the view property index ObjectRadar.Property.OutlineStyle. -/
def POutlineStyle : Int := 11

/-- the object property index ObjectRadar.Property.Identifier. -/
def PIdentifier : Int := 12

/-- the object property index ObjectRadar.Property.Type. -/
def PType : Int := 13

/-- the object property index ObjectRadar.Property.Position. -/
def PPosition : Int := 14

/-- the object property index ObjectRadar.Property.Color. -/
def PColor : Int := 15

/-- the object property index ObjectRadar.Property.Area. -/
def PArea : Int := 16

/-- the object property index ObjectRadar.Property.Altitude. -/
def PAltitude : Int := 17

/-- the object property index ObjectRadar.Property.Visibility. -/
def PVisibility : Int := 18

/-- the sentinel count ObjectRadar.Property.__N__. -/
def PCount : Int := 19

/-- model of the QTimer of ObjectRadarPrivate: interval in integer milliseconds plus
the running flag; a fresh QTimer has interval zero and is stopped. -/
structure QTimerState where
  intervalMs : Int
  running : Bool
deriving DecidableEq

namespace priv

/-- cast of a (possibly negative) int to size_t, modulo 2 ^ 64. -/
def sizetCast (i : Int) : Nat := (i % (2 ^ 64 : Int)).toNat

/-- one entry of the property info map __PropertyInfoEntry__: property index, metatype,
optional inclusive range (the QSizeF range field read as a low/high pair). -/
structure PII where
  prop : Int
  mtype : QMetaTypeT
  range : Option (ℚ × ℚ)
deriving DecidableEq

/-- gl_FType: the lowest object type index (ObjectType.Vehicle). -/
def gl_FType : ℚ := 0

/-- gl_LType: the highest object type index (ObjectType.__N__ minus one). -/
def gl_LType : ℚ := 4

/-- gl_FPStyle: the first valid outline style (Qt.NoPen). -/
def gl_FPStyle : ℚ := 0

/-- gl_LPStyle: the last valid outline style (Qt.DashDotDotLine). -/
def gl_LPStyle : ℚ := 5

/-- the property value type map gl_PropertyTypeLUT of radar.cpp, in source order. -/
def gl_PropertyTypeLUT : List PII := [
  ⟨PUpdateRate, .mfloat, some (1/20, 240)⟩,
  ⟨PStaticTextFont, .mfp, none⟩,
  ⟨PLabelFont, .mfp, none⟩,
  ⟨PObjectLabelFont, .mfp, none⟩,
  ⟨PForegroundColor, .mqcolor, none⟩,
  ⟨PBackgroundColor, .mqcolor, none⟩,
  ⟨PRadarCenter, .mqpointf, none⟩,
  ⟨PRadarAltitude, .mfloat, none⟩,
  ⟨PRadarRange, .mqsizef, none⟩,
  ⟨PAreaOpacity, .mint, some (0, 255)⟩,
  ⟨POutlineStrength, .mint, some (0, 20)⟩,
  ⟨POutlineStyle, .mint, some (gl_FPStyle, gl_LPStyle)⟩,
  ⟨PIdentifier, .mqstring, none⟩,
  ⟨PType, .mint, some (gl_FType, gl_LType)⟩,
  ⟨PPosition, .mqpointf, none⟩,
  ⟨PColor, .mqcolor, none⟩,
  ⟨PArea, .mpa, none⟩,
  ⟨PAltitude, .mfloat, none⟩,
  ⟨PVisibility, .mbool, none⟩]

/-- int_isValidPropertyIndex: the index, cast to size_t, must be below the map size
(the size_t comparison makes the negative test of the source vacuous; negative ints
become huge size_t values and are rejected by the upper bound). -/
def int_isValidPropertyIndex (prop : Int) : Bool :=
  decide (sizetCast prop < gl_PropertyTypeLUT.length)

/-- int_isValidPropertyValue: index check, then exact metatype match (the source tests
the xor of the two type ids against zero), then, when a range is present, the
sign-of-product inclusive range test on the scalar. The none arm of the lookup is
unreachable after the index check. -/
def int_isValidPropertyValue (prop : Int) (val : QVariant) : Bool :=
  if int_isValidPropertyIndex prop = false then false
  else
    match gl_PropertyTypeLUT.get? (sizetCast prop) with
    | none => false
    | some entry =>
      if val.typeId ≠ entry.mtype then false
      else
        match entry.range with
        | some (lo, hi) =>
          if (val.toFloat - lo) * (hi - val.toFloat) < 0 then false else true
        | none => true

/-- int_tryInitializeRepaintTimer of radar.cpp: computes 1000 / rate milliseconds; when
this differs from the current interval, stops the timer, sets the interval (a float,
truncated by QTimer.setInterval to int milliseconds) and restarts it. The nullptr
branch of the source has no counterpart here because the timer always exists. -/
def int_tryInitializeRepaintTimer (updpersec : ℚ) (t : QTimerState) : QTimerState :=
  let ninterval : ℚ := 1000 / updpersec
  if (t.intervalMs : ℚ) = ninterval then t
  else { intervalMs := truncToInt ninterval, running := true }

end priv

/-- RadarObject of radar.cpp: the per-entity record. The object type travels as a raw
Int, as the source casts unchecked ints into the enum. -/
structure RadarObject where
  mtype : Int
  position : QPointF
  color : QColor
  area : QSizeF
  altitude : ℚ
  isVisible : Bool
deriving DecidableEq

/-- the RadarObject constructor taking type, position and altitude; the other fields
take their default member values (invalid color, invalid size, visible). -/
def RadarObject.make (ty : Int) (pos : QPointF) (alt : ℚ) : RadarObject :=
  ⟨ty, pos, QColor.inv, ⟨-1, -1⟩, alt, true⟩

/-- the object container m_objMap of RadarObjectManager: identifier-to-record
association list (std.unordered_map with unique keys; insertion order carries no
meaning for lookups). -/
abbrev ObjMap := List (String × RadarObject)

namespace ROM

/-- RadarObjectManager.getObject: lookup by exact identifier match. -/
def getObject : ObjMap → String → Option RadarObject
  | [], _ => none
  | (k, o) :: rest, ident => if k = ident then some o else getObject rest ident

/-- RadarObjectManager.addObject: fail and leave the map untouched when the identifier
is already present, else insert the entry. -/
def addObject (m : ObjMap) (ident : String) (obj : RadarObject) : Bool × ObjMap :=
  if (getObject m ident).isSome = true then (false, m)
  else (true, (ident, obj) :: m)

/-- erasure of the (unique) entry of a key, as std.unordered_map.erase. -/
def eraseKey : ObjMap → String → ObjMap
  | [], _ => []
  | (k, o) :: rest, ident => if k = ident then rest else (k, o) :: eraseKey rest ident

/-- RadarObjectManager.removeObject: succeed iff the key was present (the erase count
is one); a success emits objectRemoved, consumed by the empty updateTrackedObject
slot. -/
def removeObject (m : ObjMap) (ident : String) : Bool × ObjMap :=
  ((getObject m ident).isSome, eraseKey m ident)

/-- RadarObjectManager.clearObjects. -/
def clearObjects : ObjMap := []

/-- in-place mutation through the pointer returned by getObject: rewrite the first
matching node, leave everything else untouched. -/
def updateObj : ObjMap → String → (RadarObject → RadarObject) → ObjMap
  | [], _, _ => []
  | (k, o) :: rest, ident, f =>
    if k = ident then (k, f o) :: rest else (k, o) :: updateObj rest ident f

end ROM

/-- the cached display resources of ObjectRadarPrivate (compass and scale pixmaps,
three rendered fonts). -/
structure CacheState where
  cRadarCompass : QPixmap
  cRadarScale : QPixmap
  cRadarStaticTextFont : QFont
  cRadarLabelFont : QFont
  cRadarObjectLabelFont : QFont
deriving DecidableEq

/-- default-constructed cache members. -/
def cacheInit : CacheState := ⟨⟨0, 0⟩, ⟨0, 0⟩, QFont.initial, QFont.initial, QFont.initial⟩

/-- INT_MAX, the refresh-all pseudo property index used at construction. -/
def INT_MAX : Int := 2147483647

/-- ObjectRadarPrivate.updateCache: the source computes the refresh-all flag, but the
switch deciding what resources to update has an empty body (a TODO in the source), so
the cache comes back unchanged for every property. -/
def updateCache (prop : Int) (_val : QVariant) (c : CacheState) : CacheState :=
  let _isall : Bool := prop == INT_MAX
  c

/-- ObjectRadarPrivate.updateTrackedObject: the slot connected to objectAdded and
objectRemoved; its body is empty in the source, so the tracked pointer comes back
unchanged. -/
def updateTrackedObject (_ident : Option String) (tracked : Option String) : Option String :=
  tracked

/-- the full private state of the radar widget: ObjectRadarPrivate together with the
object map, repaint timer and cache it owns. The raw pointer m_trackedObject is
modelled by the identifier of the node it was pointed at (none for nullptr). -/
structure RadarState where
  updateRate : ℚ
  radarCenter : QPointF
  radarRange : QSizeF
  radarAlt : ℚ
  staticTextFont : FontProperties
  labelFont : FontProperties
  objLabelFont : FontProperties
  fgndColor : QColor
  bgndColor : QColor
  areaOpacity : Int
  outlineStrength : Int
  outlineStyle : Int
  trackedObject : Option String
  redrawTimer : QTimerState
  objMap : ObjMap
  cache : CacheState
deriving DecidableEq

/-- the field initializers of ObjectRadarPrivate: rate 30, center 0/0, range 5/35,
altitude 0, the three B612 fonts, gray on black, opacity 102 (0.4 times 255 truncated),
outline width 2, Qt.SolidLine (1), no tracked object, a fresh stopped timer, an empty
object map and default-constructed cache members. -/
def privInit : RadarState where
  updateRate := 30
  radarCenter := ⟨0, 0⟩
  radarRange := ⟨5, 35⟩
  radarAlt := 0
  staticTextFont := fontB612 10
  labelFont := fontB612 11
  objLabelFont := fontB612 9
  fgndColor := qtGray
  bgndColor := qtBlack
  areaOpacity := 102
  outlineStrength := 2
  outlineStyle := 1
  trackedObject := none
  redrawTimer := ⟨0, false⟩
  objMap := []
  cache := cacheInit

/-- the ObjectRadar constructor: the refresh-all updateCache call, the signal
connections (modelled by invoking the connected slots at the emit sites), then the
initial int_tryInitializeRepaintTimer call with the default update rate. -/
def radarInit : RadarState :=
  let s := privInit
  let s := { s with cache := updateCache INT_MAX QVariant.invalid s.cache }
  { s with redrawTimer := priv.int_tryInitializeRepaintTimer s.updateRate s.redrawTimer }

namespace ObjectRadar

/-- ObjectRadar.addObject: reject object types outside the enum range, then delegate to
RadarObjectManager.addObject; a success emits objectAdded, consumed by the empty
updateTrackedObject slot. -/
def addObject (s : RadarState) (ident : String) (ty : Int) (pos : QPointF) (alt : ℚ) :
    Bool × RadarState :=
  if ty < 0 ∨ 5 ≤ ty then (false, s)
  else
    let r := ROM.addObject s.objMap ident (RadarObject.make ty pos alt)
    (r.1, { s with objMap := r.2,
                   trackedObject :=
                     if r.1 then updateTrackedObject (some ident) s.trackedObject
                     else s.trackedObject })

/-- ObjectRadar.removeObject: delegate to RadarObjectManager.removeObject; on success
objectRemoved is consumed by the empty updateTrackedObject slot, which leaves the
tracked pointer untouched. -/
def removeObject (s : RadarState) (ident : String) : Bool × RadarState :=
  let r := ROM.removeObject s.objMap ident
  (r.1, { s with objMap := r.2,
                 trackedObject :=
                   if r.1 then updateTrackedObject (some ident) s.trackedObject
                   else s.trackedObject })

/-- ObjectRadar.removeAllObjects: clear the map; objectRemoved with the empty optional
is consumed by the empty updateTrackedObject slot. -/
def removeAllObjects (s : RadarState) : RadarState :=
  { s with objMap := ROM.clearObjects,
           trackedObject := updateTrackedObject none s.trackedObject }

/-- ObjectRadar.hasObject. -/
def hasObject (s : RadarState) (ident : String) : Bool :=
  (ROM.getObject s.objMap ident).isSome

/-- view overload of ObjectRadar.getProperty: index check, then the switch of the
source, whose cases cover only six of the twelve view properties; every other index
falls through to the invalid variant. -/
def getProperty (s : RadarState) (prop : Int) : QVariant :=
  if priv.int_isValidPropertyIndex prop = false then QVariant.invalid
  else if prop = PUpdateRate then .vfloat s.updateRate
  else if prop = PForegroundColor then .vcolor s.fgndColor
  else if prop = PBackgroundColor then .vcolor s.bgndColor
  else if prop = PRadarCenter then .vpointF s.radarCenter
  else if prop = PRadarAltitude then .vfloat s.radarAlt
  else if prop = PRadarRange then .vsizeF s.radarRange
  else QVariant.invalid

/-- object overload of ObjectRadar.getProperty. -/
def getPropertyObj (s : RadarState) (ident : String) (prop : Int) : QVariant :=
  match ROM.getObject s.objMap ident with
  | none => QVariant.invalid
  | some robj =>
    if prop = PIdentifier then .vstring ident
    else if prop = PType then .vint robj.mtype
    else if prop = PPosition then .vpointF robj.position
    else if prop = PColor then .vcolor robj.color
    else if prop = PArea then .vsizeF robj.area
    else if prop = PAltitude then .vfloat robj.altitude
    else if prop = PVisibility then .vbool robj.isVisible
    else QVariant.invalid

/-- the successful exit of the view property switch: emit propertyValueChanged, which
is connected to ObjectRadarPrivate.updateCache. -/
def emitViewChanged (s : RadarState) (prop : Int) (val : QVariant) : Bool × RadarState :=
  (true, { s with cache := updateCache prop val s.cache })

/-- view overload of ObjectRadar.setProperty: validate, then the switch over the twelve
view properties in source order; any other index, object properties included, falls to
the default branch and fails without touching the state. -/
def setProperty (s : RadarState) (prop : Int) (val : QVariant) : Bool × RadarState :=
  if priv.int_isValidPropertyValue prop val = false then (false, s)
  else if prop = PStaticTextFont then
    emitViewChanged { s with staticTextFont := val.toFontProps } prop val
  else if prop = PLabelFont then
    emitViewChanged { s with labelFont := val.toFontProps } prop val
  else if prop = PObjectLabelFont then
    emitViewChanged { s with objLabelFont := val.toFontProps } prop val
  else if prop = PForegroundColor then
    emitViewChanged { s with fgndColor := val.toColorV } prop val
  else if prop = PBackgroundColor then
    emitViewChanged { s with bgndColor := val.toColorV } prop val
  else if prop = PRadarCenter then
    emitViewChanged { s with radarCenter := val.toPointF } prop val
  else if prop = PRadarAltitude then
    emitViewChanged { s with radarAlt := val.toFloat } prop val
  else if prop = PUpdateRate then
    emitViewChanged { s with updateRate := val.toFloat } prop val
  else if prop = PRadarRange then
    emitViewChanged { s with radarRange := val.toSizeF } prop val
  else if prop = PAreaOpacity then
    emitViewChanged { s with areaOpacity := val.toInt } prop val
  else if prop = POutlineStrength then
    emitViewChanged { s with outlineStrength := val.toInt } prop val
  else if prop = POutlineStyle then
    emitViewChanged { s with outlineStyle := val.toInt } prop val
  else (false, s)

/-- object overload of ObjectRadar.setProperty: validate, fetch the record, then the
switch; Identifier triggers the copy-then-remove rename path of the source; view
properties fall through the switch and fail. -/
def setPropertyObj (s : RadarState) (ident : String) (prop : Int) (val : QVariant) :
    Bool × RadarState :=
  if priv.int_isValidPropertyValue prop val = false then (false, s)
  else
    match ROM.getObject s.objMap ident with
    | none => (false, s)
    | some obj =>
      if prop = PIdentifier then
        let r1 := ROM.addObject s.objMap val.toQString obj
        if r1.1 = false then (false, s)
        else
          let r2 := ROM.removeObject r1.2 ident
          (r2.1, { s with objMap := r2.2 })
      else if prop = PType then
        (true,
          { s with objMap := ROM.updateObj s.objMap ident (fun o => { o with mtype := val.toInt }) })
      else if prop = PPosition then
        (true,
          { s with objMap := ROM.updateObj s.objMap ident (fun o => { o with position := val.toPointF }) })
      else if prop = PColor then
        (true,
          { s with objMap := ROM.updateObj s.objMap ident (fun o => { o with color := val.toColorV }) })
      else if prop = PArea then
        (true,
          { s with objMap := ROM.updateObj s.objMap ident (fun o => { o with area := val.toSizeF }) })
      else if prop = PAltitude then
        (true,
          { s with objMap := ROM.updateObj s.objMap ident (fun o => { o with altitude := val.toFloat }) })
      else if prop = PVisibility then
        (true,
          { s with objMap := ROM.updateObj s.objMap ident (fun o => { o with isVisible := val.toBoolV }) })
      else (false, s)

/-- ObjectRadar.getTrackedObject: the non-null branch ends in a TODO stub in the
source and also returns the empty optional. -/
def getTrackedObject (s : RadarState) : Option String :=
  match s.trackedObject with
  | none => none
  | some _ => none

/-- ObjectRadar.setTrackedObject: silently ignore identifiers not in the store, else
point the tracked-object cache at the found node. -/
def setTrackedObject (s : RadarState) (ident : String) : RadarState :=
  match ROM.getObject s.objMap ident with
  | none => s
  | some _ => { s with trackedObject := some ident }

end ObjectRadar

/-- the RadarArea polygon. -/
structure RadarArea where
  isSmooth : Bool
  vertices : List QPointF
deriving DecidableEq

/-- RadarArea.addVertex (the catch branch of the source is unreachable here). -/
def RadarArea.addVertex (a : RadarArea) (v : QPointF) : Bool × RadarArea :=
  (true, { a with vertices := a.vertices ++ [v] })

/-- RadarArea.removeVertex: the guard of the source compares size greater-or-equal
index (with the int index converted to size_t for that comparison) or index negative,
and rejects the call; the erase of the other branch is an out-of-bounds vector access
in the source, modelled by List.eraseIdx. -/
def RadarArea.removeVertex (a : RadarArea) (index : Int) : Bool × RadarArea :=
  if a.vertices.length ≥ priv.sizetCast index ∨ index < 0 then (false, a)
  else (true, { a with vertices := a.vertices.eraseIdx (priv.sizetCast index) })

/-- RadarArea.clearVertices. -/
def RadarArea.clearVertices (a : RadarArea) : RadarArea := { a with vertices := [] }

/-- key-uniqueness predicate of the object map. -/
abbrev NodupKeys (m : ObjMap) : Prop := (m.map Prod.fst).Nodup

/-- a sample vehicle record at position 12/55, altitude 300. -/
def obj0 : RadarObject := RadarObject.make 0 ⟨12, 55⟩ 300

/-- a store holding obj0 under identifier A1. -/
def storeA : ObjMap := [("A1", obj0)]

/-- the radar state reached from the fresh widget by addObject of A1. -/
def stateA : RadarState := (ObjectRadar.addObject radarInit "A1" 0 ⟨12, 55⟩ 300).2

/-- the state reached from stateA by tracking A1. -/
def trackedA : RadarState := ObjectRadar.setTrackedObject stateA "A1"

/-- a sample polygon with two vertices. -/
def area0 : RadarArea := ⟨false, [⟨1, 2⟩, ⟨3, 4⟩]⟩

/-- a lookup misses exactly when the key is not among the stored keys. -/
theorem getObject_eq_none_iff (m : ObjMap) (q : String) :
    ROM.getObject m q = none ↔ q ∉ m.map Prod.fst := by
  induction m with
  | nil => simp [ROM.getObject]
  | cons p rest ih =>
    obtain ⟨k, o⟩ := p
    by_cases hk : k = q
    · subst hk
      simp [ROM.getObject]
    · have hk2 : ¬ q = k := fun h => hk h.symm
      simp [ROM.getObject, hk, hk2, ih]

/-- on a unique-key map, erasing a key removes exactly that key's binding. -/
theorem getObject_eraseKey (m : ObjMap) (q x : String) (h : NodupKeys m) :
    ROM.getObject (ROM.eraseKey m q) x = if x = q then none else ROM.getObject m x := by
  induction m with
  | nil =>
    simp only [ROM.eraseKey, ROM.getObject]
    split <;> rfl
  | cons p rest ih =>
    obtain ⟨k, o⟩ := p
    have hnd : k ∉ rest.map Prod.fst ∧ NodupKeys rest := by
      simpa [NodupKeys, List.nodup_cons] using h
    by_cases hk : k = q
    · subst hk
      simp only [ROM.eraseKey, if_pos rfl]
      by_cases hx : x = k
      · subst hx
        simp [(getObject_eq_none_iff rest x).mpr hnd.1]
      · have hx2 : ¬ k = x := fun hEq => hx hEq.symm
        simp [ROM.getObject, hx, hx2]
    · simp only [ROM.eraseKey, if_neg hk]
      by_cases hx : k = x
      · subst hx
        have hx2 : ¬ k = q := hk
        simp [ROM.getObject, hk]
      · simp [ROM.getObject, hx, ih hnd.2]

/-- addObject preserves key uniqueness. -/
theorem nodupKeys_addObject (m : ObjMap) (ident : String) (obj : RadarObject)
    (h : NodupKeys m) : NodupKeys (ROM.addObject m ident obj).2 := by
  cases hs : (ROM.getObject m ident).isSome with
  | true => simpa [ROM.addObject, hs] using h
  | false =>
    have hn : ROM.getObject m ident = none := by
      cases hg : ROM.getObject m ident
      · rfl
      · rw [hg] at hs; cases hs
    have hmem : ident ∉ m.map Prod.fst := (getObject_eq_none_iff m ident).mp hn
    have hadd : (ROM.addObject m ident obj).2 = (ident, obj) :: m := by
      simp [ROM.addObject, hs]
    rw [hadd]
    exact List.nodup_cons.mpr ⟨hmem, h⟩

/-- any sequence of addObject calls starting from a unique-key map keeps keys unique. -/
theorem nodupKeys_addFold (ops : List (String × RadarObject)) :
    ∀ m : ObjMap, NodupKeys m →
      NodupKeys (ops.foldl (fun acc p => (ROM.addObject acc p.1 p.2).2) m) := by
  induction ops with
  | nil => intro m h; simpa using h
  | cons p rest ih =>
    intro m h
    simp only [List.foldl_cons]
    exact ih _ (nodupKeys_addObject m p.1 p.2 h)

/-- Claim C1: the claim asks that after setTrackedObject with an identifier present in
the store, getTrackedObject return that identifier; on the code, setTrackedObject does
set the internal pointer, but getTrackedObject's non-null branch is a TODO stub that
returns the empty optional, contradicting its own documented contract. -/
theorem C1_getTrackedObject_stub :
    ObjectRadar.hasObject stateA "A1" = true
    ∧ trackedA.trackedObject = some "A1"
    ∧ ObjectRadar.getTrackedObject trackedA = none :=
  ⟨by decide, by decide, by decide⟩

/-- Claim C2: the tracked reference dangles on the code: updateTrackedObject has an
empty body, so after removing the tracked entry (individually or via removeAllObjects)
the internal pointer still denotes the removed node, contradicting the documented
untracking on removal. -/
theorem C2_tracked_reference_dangles :
    (ObjectRadar.removeObject trackedA "A1").1 = true
    ∧ (ObjectRadar.removeObject trackedA "A1").2.trackedObject = some "A1"
    ∧ ROM.getObject (ObjectRadar.removeObject trackedA "A1").2.objMap "A1" = none
    ∧ (ObjectRadar.removeAllObjects trackedA).trackedObject = some "A1"
    ∧ (ObjectRadar.removeAllObjects trackedA).objMap = [] :=
  ⟨by decide, by decide, by decide, by decide, by decide⟩

/-- Claim C3: rename atomicity of the Identifier write: on a unique-key store holding
obj under ident, the rename fails leaving the whole state untouched when newId is
taken (newId equal to ident included); otherwise it succeeds, the very record moves to
newId, ident stops resolving, every other key is untouched and no other state
component changes. -/
theorem C3_rename_atomicity (s : RadarState) (ident newId : String) (obj : RadarObject)
    (hnd : NodupKeys s.objMap) (h : ROM.getObject s.objMap ident = some obj) :
    ((ROM.getObject s.objMap newId).isSome = true →
      ObjectRadar.setPropertyObj s ident PIdentifier (QVariant.vstring newId) = (false, s))
    ∧ (ROM.getObject s.objMap newId = none →
      (ObjectRadar.setPropertyObj s ident PIdentifier (QVariant.vstring newId)).1 = true
      ∧ ROM.getObject
          (ObjectRadar.setPropertyObj s ident PIdentifier (QVariant.vstring newId)).2.objMap
          newId = some obj
      ∧ ROM.getObject
          (ObjectRadar.setPropertyObj s ident PIdentifier (QVariant.vstring newId)).2.objMap
          ident = none
      ∧ (∀ k, k ≠ ident → k ≠ newId →
          ROM.getObject
            (ObjectRadar.setPropertyObj s ident PIdentifier (QVariant.vstring newId)).2.objMap
            k = ROM.getObject s.objMap k)
      ∧ (ObjectRadar.setPropertyObj s ident PIdentifier (QVariant.vstring newId)).2
          = { s with objMap :=
              (ObjectRadar.setPropertyObj s ident PIdentifier (QVariant.vstring newId)).2.objMap }) := by
  have hval : priv.int_isValidPropertyValue PIdentifier (QVariant.vstring newId) = true := rfl
  constructor
  · intro hsome
    simp [ObjectRadar.setPropertyObj, hval, h, ROM.addObject, hsome, QVariant.toQString]
  · intro hnone
    have hne : newId ≠ ident := by
      intro hEq
      rw [hEq, h] at hnone
      cases hnone
    have hres : ObjectRadar.setPropertyObj s ident PIdentifier (QVariant.vstring newId)
        = (true, { s with objMap := (newId, obj) :: ROM.eraseKey s.objMap ident }) := by
      simp [ObjectRadar.setPropertyObj, hval, h, hnone, ROM.addObject, ROM.removeObject,
            ROM.getObject, hne, QVariant.toQString, ROM.eraseKey]
    rw [hres]
    refine ⟨rfl, ?_, ?_, ?_, rfl⟩
    · simp [ROM.getObject]
    · simp only [ROM.getObject, if_neg hne]
      rw [getObject_eraseKey s.objMap ident ident hnd]
      simp
    · intro k hk hknew
      have hk2 : ¬ newId = k := fun hEq => hknew hEq.symm
      simp only [ROM.getObject, if_neg hk2]
      rw [getObject_eraseKey s.objMap ident k hnd]
      simp [hk]

/-- concrete run of the rename path: on the singleton store holding obj0 under A1, the
rename to the fresh identifier A2 succeeds and the record resolves under A2. -/
theorem C3_rename_atomicity_witness :
    (ObjectRadar.setPropertyObj stateA "A1" PIdentifier (QVariant.vstring "A2")).1 = true
    ∧ ROM.getObject
        (ObjectRadar.setPropertyObj stateA "A1" PIdentifier (QVariant.vstring "A2")).2.objMap
        "A2" = some obj0 := by
  have h := C3_rename_atomicity stateA "A1" "A2" obj0 (by decide) (by rfl)
  have h2 := h.2 (by rfl)
  exact ⟨h2.1, h2.2.1⟩

/-- Claim C4: identifier uniqueness of addObject: a duplicate add fails returning the
store unchanged, a fresh add inserts exactly the new entry and touches no other key,
key uniqueness is preserved by every add, and hence holds along every sequence of adds
from the empty store. -/
theorem C4_addObject_uniqueness (m : ObjMap) (ident : String) (obj : RadarObject) :
    ((ROM.getObject m ident).isSome = true → ROM.addObject m ident obj = (false, m))
    ∧ (ROM.getObject m ident = none →
        ROM.addObject m ident obj = (true, (ident, obj) :: m)
        ∧ ROM.getObject ((ident, obj) :: m) ident = some obj
        ∧ ∀ k, k ≠ ident → ROM.getObject ((ident, obj) :: m) k = ROM.getObject m k)
    ∧ (NodupKeys m → NodupKeys (ROM.addObject m ident obj).2)
    ∧ ∀ ops : List (String × RadarObject),
        NodupKeys (ops.foldl (fun acc p => (ROM.addObject acc p.1 p.2).2) []) := by
  refine ⟨?_, ?_, nodupKeys_addObject m ident obj, ?_⟩
  · intro hs
    simp [ROM.addObject, hs]
  · intro hn
    have hs : (ROM.getObject m ident).isSome = false := by rw [hn]; rfl
    refine ⟨by simp [ROM.addObject, hs], by simp [ROM.getObject], ?_⟩
    intro k hk
    have hk2 : ¬ ident = k := fun hEq => hk hEq.symm
    simp [ROM.getObject, hk2]
  · intro ops
    exact nodupKeys_addFold ops [] (by simp [NodupKeys])

/-- concrete run of a duplicate add: adding A1 onto the store already holding A1 fails
and hands back the very same store. -/
theorem C4_addObject_uniqueness_witness :
    ROM.addObject storeA "A1" obj0 = (false, storeA) :=
  (C4_addObject_uniqueness storeA "A1" obj0).1 (by decide)

/-- Claim C5 counterexample: StaticTextFont is a known view property with a live
view-state value, yet the view getter hands back the invalid failure sentinel for it
(and likewise for AreaOpacity), so the getter does not return the current view-state
setting for every view-scoped property as the claim states. -/
theorem C5_view_getter_counterexample :
    priv.int_isValidPropertyIndex PStaticTextFont = true
    ∧ radarInit.staticTextFont = fontB612 10
    ∧ ObjectRadar.getProperty radarInit PStaticTextFont = QVariant.invalid
    ∧ ObjectRadar.getProperty radarInit PAreaOpacity = QVariant.invalid :=
  ⟨by decide, by decide, by decide, by decide⟩

/-- Claim C5 amended: the view getter returns the live view-state value exactly for
UpdateRate, ForegroundColor, BackgroundColor, RadarCenter, RadarAltitude and
RadarRange; every other property index, the remaining six view properties and the
seven object-scoped properties included, yields the invalid sentinel, as does any
index outside the catalog. -/
theorem C5_view_getter_amended (s : RadarState) (p : Int) :
    ObjectRadar.getProperty s PUpdateRate = QVariant.vfloat s.updateRate
    ∧ ObjectRadar.getProperty s PForegroundColor = QVariant.vcolor s.fgndColor
    ∧ ObjectRadar.getProperty s PBackgroundColor = QVariant.vcolor s.bgndColor
    ∧ ObjectRadar.getProperty s PRadarCenter = QVariant.vpointF s.radarCenter
    ∧ ObjectRadar.getProperty s PRadarAltitude = QVariant.vfloat s.radarAlt
    ∧ ObjectRadar.getProperty s PRadarRange = QVariant.vsizeF s.radarRange
    ∧ ObjectRadar.getProperty s PStaticTextFont = QVariant.invalid
    ∧ ObjectRadar.getProperty s PLabelFont = QVariant.invalid
    ∧ ObjectRadar.getProperty s PObjectLabelFont = QVariant.invalid
    ∧ ObjectRadar.getProperty s PAreaOpacity = QVariant.invalid
    ∧ ObjectRadar.getProperty s POutlineStrength = QVariant.invalid
    ∧ ObjectRadar.getProperty s POutlineStyle = QVariant.invalid
    ∧ ObjectRadar.getProperty s PIdentifier = QVariant.invalid
    ∧ ObjectRadar.getProperty s PType = QVariant.invalid
    ∧ ObjectRadar.getProperty s PPosition = QVariant.invalid
    ∧ ObjectRadar.getProperty s PColor = QVariant.invalid
    ∧ ObjectRadar.getProperty s PArea = QVariant.invalid
    ∧ ObjectRadar.getProperty s PAltitude = QVariant.invalid
    ∧ ObjectRadar.getProperty s PVisibility = QVariant.invalid
    ∧ (priv.int_isValidPropertyIndex p = false →
        ObjectRadar.getProperty s p = QVariant.invalid) := by
  refine ⟨rfl, rfl, rfl, rfl, rfl, rfl, rfl, rfl, rfl, rfl, rfl, rfl, rfl, rfl, rfl, rfl,
    rfl, rfl, rfl, ?_⟩
  intro hp
  simp [ObjectRadar.getProperty, hp]

/-- concrete run of the amended getter contract: the out-of-range index 1000 and the
object-scoped Identifier index both yield the sentinel, and UpdateRate reads back the
initial rate 30. -/
theorem C5_view_getter_amended_witness :
    ObjectRadar.getProperty radarInit 1000 = QVariant.invalid
    ∧ ObjectRadar.getProperty radarInit PIdentifier = QVariant.invalid
    ∧ ObjectRadar.getProperty radarInit PUpdateRate = QVariant.vfloat 30 := by
  obtain ⟨h1, -, -, -, -, -, -, -, -, -, -, -, hid, -, -, -, -, -, -, himp⟩ :=
    C5_view_getter_amended radarInit 1000
  exact ⟨himp (by decide), hid, h1⟩

/-- Claim C6: for every descriptor carrying a numeric range, a type-correct candidate
passes validation exactly when it lies between the bounds, both ends inclusive; and
the out-of-range write UpdateRate to 500 fails leaving the state unchanged. -/
theorem C6_range_validation (prop : Int) (e : priv.PII) (lo hi : ℚ) (val : QVariant)
    (he : priv.gl_PropertyTypeLUT.get? (priv.sizetCast prop) = some e)
    (hr : e.range = some (lo, hi))
    (ht : val.typeId = e.mtype)
    (hlh : lo ≤ hi) :
    (priv.int_isValidPropertyValue prop val = true
      ↔ lo ≤ val.toFloat ∧ val.toFloat ≤ hi)
    ∧ ObjectRadar.setProperty radarInit PUpdateRate (QVariant.vfloat 500)
        = (false, radarInit) := by
  constructor
  · have hlt : priv.sizetCast prop < priv.gl_PropertyTypeLUT.length := by
      by_contra hc
      rw [List.get?_eq_none.mpr (Nat.le_of_not_lt hc)] at he
      exact Option.noConfusion he
    have hidx : priv.int_isValidPropertyIndex prop = true := by
      simpa [priv.int_isValidPropertyIndex] using hlt
    simp only [priv.int_isValidPropertyValue, hidx, he, ht, hr]
    simp only [Bool.true_eq_false, if_false, ne_eq, not_true_eq_false]
    split
    · rename_i hneg
      constructor
      · intro hfalse
        exact absurd hfalse (by simp)
      · intro hcon
        exfalso
        rcases lt_or_le val.toFloat lo with hv | hv
        · linarith [hcon.1]
        · rcases lt_or_le hi val.toFloat with hv2 | hv2
          · linarith [hcon.2]
          · nlinarith
    · rename_i hneg
      rw [not_lt] at hneg
      constructor
      · intro _
        constructor
        · by_contra hv
          push_neg at hv
          have h1 : val.toFloat - lo < 0 := by linarith
          have h2 : 0 < hi - val.toFloat := by linarith
          nlinarith [mul_neg_of_neg_of_pos h1 h2]
        · by_contra hv
          push_neg at hv
          have h1 : 0 < val.toFloat - lo := by linarith
          have h2 : hi - val.toFloat < 0 := by linarith
          nlinarith [mul_neg_of_pos_of_neg h1 h2]
      · intro _
        rfl
  · have hv : priv.int_isValidPropertyValue PUpdateRate (QVariant.vfloat 500) = false := by
      have hidx : priv.int_isValidPropertyIndex PUpdateRate = true := by decide
      have hLUT : priv.gl_PropertyTypeLUT.get? (priv.sizetCast PUpdateRate)
          = some ⟨PUpdateRate, QMetaTypeT.mfloat, some (1/20, 240)⟩ := rfl
      simp only [priv.int_isValidPropertyValue, hidx, hLUT, QVariant.typeId, QVariant.toFloat]
      norm_num
    simp [ObjectRadar.setProperty, hv]

/-- concrete runs of the range validation at the two bounds: UpdateRate passes at
exactly 240 and at exactly one twentieth, so both bounds are inclusive. -/
theorem C6_range_validation_witness :
    priv.int_isValidPropertyValue PUpdateRate (QVariant.vfloat 240) = true
    ∧ priv.int_isValidPropertyValue PUpdateRate (QVariant.vfloat (1/20)) = true := by
  constructor
  · exact (C6_range_validation PUpdateRate ⟨PUpdateRate, .mfloat, some (1/20, 240)⟩
      (1/20) 240 (QVariant.vfloat 240) rfl rfl rfl (by norm_num)).1.mpr
      (by norm_num [QVariant.toFloat])
  · exact (C6_range_validation PUpdateRate ⟨PUpdateRate, .mfloat, some (1/20, 240)⟩
      (1/20) 240 (QVariant.vfloat (1/20)) rfl rfl rfl (by norm_num)).1.mpr
      (by norm_num [QVariant.toFloat])

/-- Claim C7: scope violations fail with no state change: every object-scoped property
index is rejected by the view setter and every view-scoped property index is rejected
by the object setter, each returning false with the state, records, cache and
notifications untouched. -/
theorem C7_scope_violation (s : RadarState) (ident : String) (prop : Int)
    (val : QVariant) :
    (12 ≤ prop → prop ≤ 18 → ObjectRadar.setProperty s prop val = (false, s))
    ∧ (0 ≤ prop → prop ≤ 11 →
        ObjectRadar.setPropertyObj s ident prop val = (false, s)) := by
  constructor
  · intro h1 h2
    have c1 : prop ≠ PStaticTextFont := by simp only [PStaticTextFont]; omega
    have c2 : prop ≠ PLabelFont := by simp only [PLabelFont]; omega
    have c3 : prop ≠ PObjectLabelFont := by simp only [PObjectLabelFont]; omega
    have c4 : prop ≠ PForegroundColor := by simp only [PForegroundColor]; omega
    have c5 : prop ≠ PBackgroundColor := by simp only [PBackgroundColor]; omega
    have c6 : prop ≠ PRadarCenter := by simp only [PRadarCenter]; omega
    have c7 : prop ≠ PRadarAltitude := by simp only [PRadarAltitude]; omega
    have c8 : prop ≠ PUpdateRate := by simp only [PUpdateRate]; omega
    have c9 : prop ≠ PRadarRange := by simp only [PRadarRange]; omega
    have c10 : prop ≠ PAreaOpacity := by simp only [PAreaOpacity]; omega
    have c11 : prop ≠ POutlineStrength := by simp only [POutlineStrength]; omega
    have c12 : prop ≠ POutlineStyle := by simp only [POutlineStyle]; omega
    simp only [ObjectRadar.setProperty, if_neg c1, if_neg c2, if_neg c3, if_neg c4,
      if_neg c5, if_neg c6, if_neg c7, if_neg c8, if_neg c9, if_neg c10, if_neg c11,
      if_neg c12, ite_self]
  · intro h1 h2
    have c1 : prop ≠ PIdentifier := by simp only [PIdentifier]; omega
    have c2 : prop ≠ PType := by simp only [PType]; omega
    have c3 : prop ≠ PPosition := by simp only [PPosition]; omega
    have c4 : prop ≠ PColor := by simp only [PColor]; omega
    have c5 : prop ≠ PArea := by simp only [PArea]; omega
    have c6 : prop ≠ PAltitude := by simp only [PAltitude]; omega
    have c7 : prop ≠ PVisibility := by simp only [PVisibility]; omega
    simp only [ObjectRadar.setPropertyObj, if_neg c1, if_neg c2, if_neg c3, if_neg c4,
      if_neg c5, if_neg c6, if_neg c7]
    split
    · rfl
    · split <;> rfl

/-- concrete scope violations: writing the object property Area through the view
setter fails with the state unchanged, as does writing the view property UpdateRate
through the object setter on an existing record. -/
theorem C7_scope_violation_witness :
    ObjectRadar.setProperty radarInit PArea (QVariant.vsizeF ⟨12, 12⟩)
      = (false, radarInit)
    ∧ ObjectRadar.setPropertyObj stateA "A1" PUpdateRate (QVariant.vfloat 60)
      = (false, stateA) :=
  ⟨(C7_scope_violation radarInit "A1" PArea (QVariant.vsizeF ⟨12, 12⟩)).1
      (by decide) (by decide),
   (C7_scope_violation stateA "A1" PUpdateRate (QVariant.vfloat 60)).2
      (by decide) (by decide)⟩

/-- Claim C8: the running-cadence invariant fails on the code: a successful UpdateRate
write only stores the new rate and signals updateCache; int_tryInitializeRepaintTimer
is invoked from the constructor alone, so the running timer keeps its old 33
millisecond interval, which no longer equals 1000 over the stored rate, while a call
to the reconfiguration helper would have moved it to 16 milliseconds. -/
theorem C8_timer_not_reconfigured :
    radarInit.redrawTimer = ⟨33, true⟩
    ∧ (ObjectRadar.setProperty radarInit PUpdateRate (QVariant.vfloat 60)).1 = true
    ∧ (ObjectRadar.setProperty radarInit PUpdateRate (QVariant.vfloat 60)).2.updateRate = 60
    ∧ (ObjectRadar.setProperty radarInit PUpdateRate (QVariant.vfloat 60)).2.redrawTimer
        = radarInit.redrawTimer
    ∧ ((33 : ℚ) ≠ 1000 / 60)
    ∧ priv.int_tryInitializeRepaintTimer 60 radarInit.redrawTimer = ⟨16, true⟩ := by
  have hn30 : ((1000 : ℚ) / 30).num = 100 := by norm_num
  have hd30 : ((1000 : ℚ) / 30).den = 3 := by norm_num
  have hn60 : ((1000 : ℚ) / 60).num = 50 := by norm_num
  have hd60 : ((1000 : ℚ) / 60).den = 3 := by norm_num
  have htr30 : truncToInt ((1000 : ℚ) / 30) = 33 := by
    show ((1000 : ℚ) / 30).num.tdiv ((1000 : ℚ) / 30).den = 33
    rw [hn30, hd30]
    decide
  have htr60 : truncToInt ((1000 : ℚ) / 60) = 16 := by
    show ((1000 : ℚ) / 60).num.tdiv ((1000 : ℚ) / 60).den = 16
    rw [hn60, hd60]
    decide
  have htimer : radarInit.redrawTimer = ⟨33, true⟩ := by
    show (if ((0 : Int) : ℚ) = 1000 / 30 then (⟨0, false⟩ : QTimerState)
          else ⟨truncToInt ((1000 : ℚ) / 30), true⟩) = ⟨33, true⟩
    rw [if_neg (by norm_num), htr30]
  have hv60 : priv.int_isValidPropertyValue PUpdateRate (QVariant.vfloat 60) = true := by
    have hidx : priv.int_isValidPropertyIndex PUpdateRate = true := by decide
    have hLUT : priv.gl_PropertyTypeLUT.get? (priv.sizetCast PUpdateRate)
        = some ⟨PUpdateRate, QMetaTypeT.mfloat, some (1/20, 240)⟩ := rfl
    simp only [priv.int_isValidPropertyValue, hidx, hLUT, QVariant.typeId, QVariant.toFloat]
    norm_num
  have hset : ObjectRadar.setProperty radarInit PUpdateRate (QVariant.vfloat 60)
      = (true, { radarInit with updateRate := 60, cache := updateCache PUpdateRate (QVariant.vfloat 60) radarInit.cache }) := by
    have d1 : PUpdateRate ≠ PStaticTextFont := by decide
    have d2 : PUpdateRate ≠ PLabelFont := by decide
    have d3 : PUpdateRate ≠ PObjectLabelFont := by decide
    have d4 : PUpdateRate ≠ PForegroundColor := by decide
    have d5 : PUpdateRate ≠ PBackgroundColor := by decide
    have d6 : PUpdateRate ≠ PRadarCenter := by decide
    have d7 : PUpdateRate ≠ PRadarAltitude := by decide
    simp [ObjectRadar.setProperty, hv60, ObjectRadar.emitViewChanged, QVariant.toFloat,
      updateCache, if_neg d1, if_neg d2, if_neg d3, if_neg d4, if_neg d5, if_neg d6,
      if_neg d7]
  refine ⟨htimer, ?_, ?_, ?_, by norm_num, ?_⟩
  · rw [hset]
  · rw [hset]
  · rw [hset]
  · rw [htimer]
    show (if ((33 : Int) : ℚ) = 1000 / 60 then (⟨33, true⟩ : QTimerState)
          else ⟨truncToInt ((1000 : ℚ) / 60), true⟩) = ⟨16, true⟩
    rw [if_neg (by norm_num), htr60]

/-- Claim C9: cache staleness fails on the code: the updateCache slot wired to
propertyValueChanged has an empty switch body, so no write marks any resource stale;
after a successful StaticTextFont write the entire cache equals the constructor cache,
so no later read can see a resource recomputed from the new view-state. -/
theorem C9_cache_never_invalidated :
    (∀ (prop : Int) (val : QVariant) (c : CacheState), updateCache prop val c = c)
    ∧ (ObjectRadar.setProperty radarInit PStaticTextFont
        (QVariant.vfont ⟨"NewFamily", 20, -1, false⟩)).1 = true
    ∧ (ObjectRadar.setProperty radarInit PStaticTextFont
        (QVariant.vfont ⟨"NewFamily", 20, -1, false⟩)).2.staticTextFont
        = ⟨"NewFamily", 20, -1, false⟩
    ∧ (ObjectRadar.setProperty radarInit PStaticTextFont
        (QVariant.vfont ⟨"NewFamily", 20, -1, false⟩)).2.cache = radarInit.cache :=
  ⟨fun _ _ _ => rfl, by decide, by decide, by decide⟩

/-- Claim C10: the inverted bounds test of removeVertex: every index from zero up to
the vertex count inclusive, hence every in-range index, is rejected with false and the
vertex list unchanged, because the guard compares size greater-or-equal index instead
of index greater-or-equal size. -/
theorem C10_removeVertex_rejects_inrange (a : RadarArea) (i : Int)
    (h0 : 0 ≤ i) (hn : i ≤ (a.vertices.length : Int)) :
    RadarArea.removeVertex a i = (false, a) := by
  have hc : a.vertices.length ≥ priv.sizetCast i := by
    simp only [priv.sizetCast]
    omega
  simp [RadarArea.removeVertex, hc]

/-- concrete run of removeVertex: the in-range index one on a two-vertex polygon is
rejected and removes nothing. -/
theorem C10_removeVertex_rejects_inrange_witness :
    RadarArea.removeVertex area0 1 = (false, area0) :=
  C10_removeVertex_rejects_inrange area0 1 (by decide) (by decide)

end tfd
